import Mathlib

/-!
Verification development for bedrock-unz (src/main.cpp, src/hackdb.h).

The program inspects and migrates leveldb databases whose blocks are
per-block compressed.  We embed, from the source:

* the compressor registry (`get_compressors`, `make_compressors`),
* the compression histogram (`block_compression_type_counter` with its
  drain `get_counts` and the logger-tap callback that increments a count),
* the missing-compressor guard (`missing_compressor_counter` with
  `get_missing`),
* the buffered transfer engine (`db_buffered_write` with `Put`, `Delete`,
  `maybe_flush`, `flush`, `finish`) and its users `clone_db`, `clear_db`,
* the command orchestration of `cmd_compact`, `cmd_clear`, `cmd_dump`,
  `find_compression_algo`.

The storage engine (leveldb) is external to the repository: a database
write is modelled by a result oracle `Nat → Status` (the status of the
i-th `db.Write` call), an open attempt by a `Status` plus the list of
compressor IDs the engine dispatches to the logger tap while opening, and
a sweep by the list of compressor IDs dispatched while iterating.
`WriteBatch.ApproximateSize` is external as well; it is modelled as a
12-byte header plus a per-record size (leveldb format: tag byte, varint
lengths, payload), which is what the flush-threshold logic observes.
C asserts are modelled by `Option`: `none` is an assertion failure.
-/

/-- leveldb Status, external: ok or an error (identified by a code). -/
inductive Status where
  | ok : Status
  | err : Nat → Status
deriving Repr, DecidableEq

/-- Status::ok(). -/
def Status.isOk : Status → Bool
  | .ok => true
  | .err _ => false

/-- A record of a leveldb WriteBatch: WriteBatch::Put or WriteBatch::Delete.
Keys and values are byte strings. -/
inductive WOp where
  | put (key value : List Nat)
  | del (key : List Nat)
deriving Repr, DecidableEq

/-- Approximate encoded size of one batch record (external leveldb format:
tag byte plus varint length fields plus payload bytes). -/
def WOp.size : WOp → Nat
  | .put k v => 3 + k.length + v.length
  | .del k => 2 + k.length

/-- WriteBatch::ApproximateSize (external): 12-byte header plus records. -/
def approximateSize (buf : List WOp) : Nat :=
  12 + (buf.map WOp.size).sum

/-- constexpr size_t one_meg = 1000 * 1000 (main.cpp line 164). -/
def one_meg : Nat := 1000 * 1000

/-- State of `struct db_buffered_write` (main.cpp lines 166-203) together
with the model of the destination database: `dbWrites i` is the status the
engine returns for the i-th `db.Write` call and `nwrites` counts the
writes performed so far. -/
structure db_buffered_write where
  dbWrites : Nat → Status
  nwrites : Nat
  max_size : Nat
  last_status : Status
  buffer : List WOp

/-- db_buffered_write::flush (lines 196-200): asserts last_status.ok()
(modelled as `none` on violation), performs the write, records its status
and clears the buffer unconditionally. -/
def db_buffered_write.flush (s : db_buffered_write) : Option db_buffered_write :=
  if s.last_status.isOk then
    some { s with
      last_status := s.dbWrites s.nwrites
      nwrites := s.nwrites + 1
      buffer := [] }
  else
    none

/-- db_buffered_write::maybe_flush (lines 183-189): flush when the buffer
approximate size reached max_size; the Bool tells whether a flush ran. -/
def db_buffered_write.maybe_flush (s : db_buffered_write) :
    Option (Bool × db_buffered_write) :=
  if approximateSize s.buffer < s.max_size then
    some (false, s)
  else
    (s.flush).map (fun t => (true, t))

/-- db_buffered_write::Put (lines 173-176): append, then
`maybe_flush() ? last_status.ok() : true`. -/
def db_buffered_write.Put (key value : List Nat) (s : db_buffered_write) :
    Option (Bool × db_buffered_write) :=
  let s1 := { s with buffer := s.buffer ++ [WOp.put key value] }
  (s1.maybe_flush).map
    (fun p => ((if p.1 then p.2.last_status.isOk else true), p.2))

/-- db_buffered_write::Delete (lines 178-181). -/
def db_buffered_write.Delete (key : List Nat) (s : db_buffered_write) :
    Option (Bool × db_buffered_write) :=
  let s1 := { s with buffer := s.buffer ++ [WOp.del key] }
  (s1.maybe_flush).map
    (fun p => ((if p.1 then p.2.last_status.isOk else true), p.2))

/-- db_buffered_write::finish (lines 191-194): flush then return
last_status. -/
def db_buffered_write.finish (s : db_buffered_write) :
    Option (Status × db_buffered_write) :=
  (s.flush).map (fun t => (t.last_status, t))

/-- Loop body of clone_db (lines 210-216): Put every input record, return
last_status at the first failed Put, finish() after the loop.  The final
state is returned so that the destructor's buffer-empty assertion (line
202) can be inspected. -/
def clone_db_loop (s : db_buffered_write) :
    List (List Nat × List Nat) → Option (Status × db_buffered_write)
  | [] => s.finish
  | e :: rest =>
    match db_buffered_write.Put e.1 e.2 s with
    | none => none
    | some (ok1, s1) =>
      if ok1 then clone_db_loop s1 rest else some (s1.last_status, s1)

/-- clone_db (lines 205-217): a fresh buffer with threshold 10 * one_meg,
then the copy loop over the input iterator's records. -/
def clone_db (dbWrites : Nat → Status) (entries : List (List Nat × List Nat)) :
    Option (Status × db_buffered_write) :=
  clone_db_loop
    { dbWrites := dbWrites, nwrites := 0, max_size := 10 * one_meg,
      last_status := .ok, buffer := [] } entries

/-- Loop body of clear_db (lines 227-232): Delete every key. -/
def clear_db_loop (s : db_buffered_write) :
    List (List Nat) → Option (Status × db_buffered_write)
  | [] => s.finish
  | k :: rest =>
    match db_buffered_write.Delete k s with
    | none => none
    | some (ok1, s1) =>
      if ok1 then clear_db_loop s1 rest else some (s1.last_status, s1)

/-- clear_db (lines 219-234). -/
def clear_db (dbWrites : Nat → Status) (keys : List (List Nat)) :
    Option (Status × db_buffered_write) :=
  clear_db_loop
    { dbWrites := dbWrites, nwrites := 0, max_size := 10 * one_meg,
      last_status := .ok, buffer := [] } keys

/-- A compression_type descriptor (main.cpp lines 23-52): the name and the
codec's self-reported uniqueCompressionID (hackdb::compression_id_t, an
unsigned char). -/
structure compression_type where
  name : String
  compression_id : Fin 256
deriving Repr, DecidableEq

/-- get_compressors (lines 54-61).  The first compressor is the default
one (comment at line 56); the last entry is the "no compression" sentinel
with ID 0.  The IDs 4 (ZlibCompressorRaw) and 2 (ZlibCompressor) are the
uniqueCompressionID values of the external leveldb-mcpe codecs. -/
def get_compressors : List compression_type :=
  [⟨"zlib raw", 4⟩, ⟨"zlib", 2⟩, ⟨"no compression", 0⟩]

/-- Loop of make_compressors (lines 65-72): skip ID 0; when only_default
is set, push the first real codec and break; otherwise push each one. -/
def make_compressors_loop (only_default : Bool) :
    List compression_type → List compression_type
  | [] => []
  | c :: rest =>
    if c.compression_id = 0 then
      make_compressors_loop only_default rest
    else if only_default then
      [c]
    else
      c :: make_compressors_loop only_default rest

/-- make_compressors (lines 63-74). -/
def make_compressors (only_default : Bool) : List compression_type :=
  make_compressors_loop only_default get_compressors

/-- State of `struct block_compression_type_counter` (lines 248-274): an
array of 256 counters indexed by compressor ID. -/
structure block_compression_type_counter where
  counts : Fin 256 → Nat

/-- The Observation Handle callback installed by the constructor (lines
268-271): `counts[compression_id].fetch_add(1, relaxed)`. -/
def block_compression_type_counter.callback
    (s : block_compression_type_counter) (id : Fin 256) :
    block_compression_type_counter :=
  ⟨fun j => if j = id then s.counts j + 1 else s.counts j⟩

/-- The constructor (lines 267-273): registers the callback under the
given logger identity and asserts the logger is not null; a null logger is
a precondition violation, modelled as `none`. -/
def block_compression_type_counter.init (logger : Option Nat) :
    Option block_compression_type_counter :=
  if logger.isSome then some ⟨fun _ => 0⟩ else none

/-- A sequence of dispatched compressor IDs applied to the counter through
its callback (hackdb::found_block_with_compressor invoking the registered
logger_entry's func once per decoded block). -/
def dispatchAll (s : block_compression_type_counter) (ids : List (Fin 256)) :
    block_compression_type_counter :=
  ids.foldl block_compression_type_counter.callback s

/-- block_compression_type_counter::get_counts (lines 255-265): for each
index 0..255 exchange the counter with zero and record the index in the
map iff the exchanged value is nonzero.  Returns the map and the drained
counter state. -/
def block_compression_type_counter.get_counts
    (s : block_compression_type_counter) :
    List (Fin 256 × Nat) × block_compression_type_counter :=
  ((List.finRange 256).filterMap
      (fun i => if 0 < s.counts i then some (i, s.counts i) else none),
    ⟨fun _ => 0⟩)

/-- std::set insert over the ID list (line 426). -/
def set_insert (s : List (Fin 256)) (x : Fin 256) : List (Fin 256) :=
  if x ∈ s then s else s ++ [x]

/-- State of `struct missing_compressor_counter` (lines 417-437). -/
structure missing_compressor_counter where
  counter : block_compression_type_counter
  compressor_ids : List (Fin 256)

/-- The missing_compressor_counter constructor (lines 420-428): a fresh
histogram (registered against the configuration's info_log, which the
commands always set to a live logger) plus the set of
uniqueCompressionIDs of the configured codec instances. -/
def missing_compressor_counter.init (compressors : List compression_type) :
    missing_compressor_counter :=
  ⟨⟨fun _ => 0⟩, (compressors.map (fun c => c.compression_id)).foldl set_insert []⟩

/-- std::map::erase of one key, on the drained histogram map. -/
def mapErase (m : List (Fin 256 × Nat)) (k : Fin 256) : List (Fin 256 × Nat) :=
  m.filter (fun p => p.1 ≠ k)

/-- missing_compressor_counter::get_missing (lines 429-436): drain the
histogram, erase key 0, erase every known compressor ID, return the rest
(and the post-drain state). -/
def missing_compressor_counter.get_missing (m : missing_compressor_counter) :
    List (Fin 256 × Nat) × missing_compressor_counter :=
  let cs := m.counter.get_counts
  let m0 := mapErase cs.1 0
  (m.compressor_ids.foldl mapErase m0, ⟨cs.2, m.compressor_ids⟩)

/-- Engine-side events of one command run: the status of the open attempt,
the compressor IDs dispatched to the logger tap while the engine opens the
database, and the IDs dispatched during the explicit sweep. -/
structure SweepEnv where
  openStatus : Status
  openDispatches : List (Fin 256)
  sweepDispatches : List (Fin 256)

/-- The guard as constructed before open_db in cmd_compact (line 501),
cmd_clear (line 542) and cmd_dump (line 455): because the counter's
callback is registered before the open, the IDs dispatched while the
engine opens the database are already counted. -/
def opened_counter (compressors : List compression_type)
    (openDispatches : List (Fin 256)) : missing_compressor_counter :=
  let m := missing_compressor_counter.init compressors
  ⟨dispatchAll m.counter openDispatches, m.compressor_ids⟩

/-- The missing map the guard reports after the open and the sweep
(cmd_compact line 517, cmd_clear line 558). -/
def sweep_missing (compressors : List compression_type) (env : SweepEnv) :
    List (Fin 256 × Nat) :=
  (missing_compressor_counter.get_missing
    ⟨dispatchAll (opened_counter compressors env.openDispatches).counter
        env.sweepDispatches,
      (opened_counter compressors env.openDispatches).compressor_ids⟩).1

/-- cmd_compact (lines 487-528): configuration codecs per the compress
flag, guard constructed, database opened (exit 1 on failure), sweep, abort
with exit 1 if the guard reports any missing compressor, otherwise
CompactRange and exit 0.  The Bool records whether CompactRange ran. -/
def cmd_compact (use_compression : Bool) (env : SweepEnv) : Nat × Bool :=
  let compressors := if use_compression then make_compressors false else []
  if env.openStatus.isOk then
    if sweep_missing compressors env = [] then (0, true) else (1, false)
  else
    (1, false)

/-- cmd_clear (lines 530-575): same guard with all codecs configured, then
clear_db; `none` would be an assertion failure inside the buffered
writer. -/
def cmd_clear (env : SweepEnv) (keys : List (List Nat))
    (dbWrites : Nat → Status) : Option Nat :=
  if env.openStatus.isOk then
    if sweep_missing (make_compressors false) env = [] then
      (clear_db dbWrites keys).map (fun r => if r.1.isOk then 0 else 1)
    else
      some 1
  else
    some 1

/-- The guard state of cmd_dump (lines 443-462) once the database has been
opened: cmd_dump constructs the counter at line 455, before open_db at
line 456, so its histogram already holds the IDs dispatched during the
open. -/
def cmd_dump_counter (env : SweepEnv) : missing_compressor_counter :=
  opened_counter (make_compressors false) env.openDispatches

/-- The engine events behind one successful open in
find_compression_algo: the IDs its sweep dispatches. -/
structure DbModel where
  sweepDispatches : List (Fin 256)

/-- open_db (lines 126-134): the returned pointer is null exactly when the
open status is not ok. -/
def open_db_model (st : Status) (db : DbModel) : Option DbModel × Status :=
  (if st.isOk then some db else none, st)

/-- find_compression_algo (lines 285-303): the counter is constructed
first, then the open callback runs (its dispatches are counted), then on
open failure an empty optional is returned without sweeping; on success
the database is swept and the drained histogram returned.  The Bool
records whether the sweep ran. -/
def find_compression_algo (maybe_db : Option DbModel)
    (openDispatches : List (Fin 256)) :
    Option (List (Fin 256 × Nat)) × Bool :=
  let counter : block_compression_type_counter := ⟨fun _ => 0⟩
  let counter1 := dispatchAll counter openDispatches
  match maybe_db with
  | none => (none, false)
  | some db =>
    (some (dispatchAll counter1 db.sweepDispatches).get_counts.1, true)

/-- A buffered writer over a destination whose every write fails with
error 7, flush threshold 20 bytes, fresh state. -/
def cex_state : db_buffered_write :=
  { dbWrites := fun _ => .err 7, nwrites := 0, max_size := 20,
    last_status := .ok, buffer := [] }

/-- A buffered writer whose last flush already failed with error 3. -/
def wit_err_state : db_buffered_write :=
  { dbWrites := fun _ => .ok, nwrites := 0, max_size := 20,
    last_status := .err 3, buffer := [] }

/-- A fresh buffered writer with threshold 13 over a destination whose
first write fails with error 5. -/
def wit_ok_state : db_buffered_write :=
  { dbWrites := fun _ => .err 5, nwrites := 0, max_size := 13,
    last_status := .ok, buffer := [] }

/-! Helper lemmas. -/

theorem counts_dispatchAll (l : List (Fin 256))
    (s : block_compression_type_counter) (i : Fin 256) :
    (dispatchAll s l).counts i = s.counts i + l.count i := by
  induction l generalizing s with
  | nil => simp [dispatchAll]
  | cons a l ih =>
    simp only [dispatchAll, List.foldl_cons] at *
    rw [ih]
    simp only [block_compression_type_counter.callback, List.count_cons]
    by_cases h : i = a
    · subst h; simp; omega
    · simp [h]; omega

theorem mem_get_counts (s : block_compression_type_counter) (i : Fin 256)
    (v : Nat) :
    (i, v) ∈ s.get_counts.1 ↔ s.counts i = v ∧ 0 < v := by
  simp only [block_compression_type_counter.get_counts, List.mem_filterMap,
    List.mem_finRange, true_and]
  constructor
  · rintro ⟨a, ha⟩
    split at ha
    · rename_i hpos
      simp only [Option.some.injEq, Prod.mk.injEq] at ha
      obtain ⟨rfl, rfl⟩ := ha
      exact ⟨rfl, hpos⟩
    · exact absurd ha (by simp)
  · rintro ⟨rfl, hv⟩
    exact ⟨i, by simp [hv]⟩

theorem foldl_mapErase (ids : List (Fin 256)) (m : List (Fin 256 × Nat)) :
    ids.foldl mapErase m = m.filter (fun p => decide (p.1 ∉ ids)) := by
  induction ids generalizing m with
  | nil => simp
  | cons a ids ih =>
    simp only [List.foldl_cons]
    rw [ih]
    simp only [mapErase]
    rw [List.filter_filter]
    apply List.filter_congr
    intro p _
    by_cases h1 : p.1 = a <;> by_cases h2 : p.1 ∈ ids <;> simp [h1, h2]

theorem mem_get_missing (m : missing_compressor_counter) (i : Fin 256)
    (v : Nat) :
    (i, v) ∈ m.get_missing.1 ↔
      (m.counter.counts i = v ∧ 0 < v) ∧ i ≠ 0 ∧ i ∉ m.compressor_ids := by
  simp only [missing_compressor_counter.get_missing, foldl_mapErase, mapErase,
    List.mem_filter, mem_get_counts, decide_eq_true_eq]
  tauto

theorem flush_of_ok (s : db_buffered_write) (hs : s.last_status.isOk = true) :
    s.flush = some { s with last_status := s.dbWrites s.nwrites,
                            nwrites := s.nwrites + 1, buffer := [] } := by
  simp [db_buffered_write.flush, hs]

theorem Put_below (k v : List Nat) (s : db_buffered_write)
    (h : approximateSize (s.buffer ++ [WOp.put k v]) < s.max_size) :
    db_buffered_write.Put k v s =
      some (true, { s with buffer := s.buffer ++ [WOp.put k v] }) := by
  simp [db_buffered_write.Put, db_buffered_write.maybe_flush, h]

theorem Put_flushes (k v : List Nat) (s : db_buffered_write)
    (h : ¬ approximateSize (s.buffer ++ [WOp.put k v]) < s.max_size)
    (hs : s.last_status.isOk = true) :
    db_buffered_write.Put k v s =
      some ((s.dbWrites s.nwrites).isOk,
        { s with last_status := s.dbWrites s.nwrites,
                 nwrites := s.nwrites + 1, buffer := [] }) := by
  simp [db_buffered_write.Put, db_buffered_write.maybe_flush,
    db_buffered_write.flush, h, hs]

theorem Delete_below (k : List Nat) (s : db_buffered_write)
    (h : approximateSize (s.buffer ++ [WOp.del k]) < s.max_size) :
    db_buffered_write.Delete k s =
      some (true, { s with buffer := s.buffer ++ [WOp.del k] }) := by
  simp [db_buffered_write.Delete, db_buffered_write.maybe_flush, h]

theorem Delete_flushes (k : List Nat) (s : db_buffered_write)
    (h : ¬ approximateSize (s.buffer ++ [WOp.del k]) < s.max_size)
    (hs : s.last_status.isOk = true) :
    db_buffered_write.Delete k s =
      some ((s.dbWrites s.nwrites).isOk,
        { s with last_status := s.dbWrites s.nwrites,
                 nwrites := s.nwrites + 1, buffer := [] }) := by
  simp [db_buffered_write.Delete, db_buffered_write.maybe_flush,
    db_buffered_write.flush, h, hs]

theorem clone_loop_empties (entries : List (List Nat × List Nat)) :
    ∀ s : db_buffered_write, s.last_status.isOk = true →
      ∃ r, clone_db_loop s entries = some r ∧ r.2.buffer = [] := by
  induction entries with
  | nil =>
    intro s hs
    have hfin : clone_db_loop s [] =
        some (s.dbWrites s.nwrites,
          { s with last_status := s.dbWrites s.nwrites,
                   nwrites := s.nwrites + 1, buffer := [] }) := by
      simp [clone_db_loop, db_buffered_write.finish, flush_of_ok s hs]
    exact ⟨_, hfin, rfl⟩
  | cons e rest ih =>
    intro s hs
    by_cases h : approximateSize (s.buffer ++ [WOp.put e.1 e.2]) < s.max_size
    · obtain ⟨r, hr, hb⟩ := ih { s with buffer := s.buffer ++ [WOp.put e.1 e.2] } hs
      exact ⟨r, by simp [clone_db_loop, Put_below e.1 e.2 s h, hr], hb⟩
    · cases hw : (s.dbWrites s.nwrites).isOk with
      | true =>
        obtain ⟨r, hr, hb⟩ :=
          ih { s with last_status := s.dbWrites s.nwrites,
                      nwrites := s.nwrites + 1, buffer := [] } hw
        exact ⟨r, by simp [clone_db_loop, Put_flushes e.1 e.2 s h hs, hw, hr], hb⟩
      | false =>
        have hstep : clone_db_loop s (e :: rest) =
            some (s.dbWrites s.nwrites,
              { s with last_status := s.dbWrites s.nwrites,
                       nwrites := s.nwrites + 1, buffer := [] }) := by
          simp [clone_db_loop, Put_flushes e.1 e.2 s h hs, hw]
        exact ⟨_, hstep, rfl⟩

theorem clear_loop_empties (keys : List (List Nat)) :
    ∀ s : db_buffered_write, s.last_status.isOk = true →
      ∃ r, clear_db_loop s keys = some r ∧ r.2.buffer = [] := by
  induction keys with
  | nil =>
    intro s hs
    have hfin : clear_db_loop s [] =
        some (s.dbWrites s.nwrites,
          { s with last_status := s.dbWrites s.nwrites,
                   nwrites := s.nwrites + 1, buffer := [] }) := by
      simp [clear_db_loop, db_buffered_write.finish, flush_of_ok s hs]
    exact ⟨_, hfin, rfl⟩
  | cons k rest ih =>
    intro s hs
    by_cases h : approximateSize (s.buffer ++ [WOp.del k]) < s.max_size
    · obtain ⟨r, hr, hb⟩ := ih { s with buffer := s.buffer ++ [WOp.del k] } hs
      exact ⟨r, by simp [clear_db_loop, Delete_below k s h, hr], hb⟩
    · cases hw : (s.dbWrites s.nwrites).isOk with
      | true =>
        obtain ⟨r, hr, hb⟩ :=
          ih { s with last_status := s.dbWrites s.nwrites,
                      nwrites := s.nwrites + 1, buffer := [] } hw
        exact ⟨r, by simp [clear_db_loop, Delete_flushes k s h hs, hw, hr], hb⟩
      | false =>
        have hstep : clear_db_loop s (k :: rest) =
            some (s.dbWrites s.nwrites,
              { s with last_status := s.dbWrites s.nwrites,
                       nwrites := s.nwrites + 1, buffer := [] }) := by
          simp [clear_db_loop, Delete_flushes k s h hs, hw]
        exact ⟨_, hstep, rfl⟩

theorem mem_sweep_missing (compressors : List compression_type)
    (env : SweepEnv) (i : Fin 256) (v : Nat) :
    (i, v) ∈ sweep_missing compressors env ↔
      (v = env.openDispatches.count i + env.sweepDispatches.count i ∧ 0 < v) ∧
      i ≠ 0 ∧
      i ∉ (missing_compressor_counter.init compressors).compressor_ids := by
  simp only [sweep_missing, opened_counter, mem_get_missing,
    counts_dispatchAll]
  simp only [missing_compressor_counter.init]
  constructor
  · rintro ⟨⟨hv, hpos⟩, h0, hids⟩
    exact ⟨⟨by omega, hpos⟩, h0, hids⟩
  · rintro ⟨⟨hv, hpos⟩, h0, hids⟩
    exact ⟨⟨by omega, hpos⟩, h0, hids⟩

/-! Claim theorems. -/

/-- C1 (counterexample): for the buffered transfer engine it is NOT the
case that once a flush's write has failed every subsequent put returns
failure: on a destination whose writes always fail (threshold 20), the Put
that triggers the failing flush returns false, yet the next Put (below the
threshold) returns true, and finish() violates flush's ok-status
assertion instead of returning the first error. -/
theorem put_after_failed_flush_returns_true :
    ((db_buffered_write.Put [1, 2, 3, 4, 5] [6] cex_state).map Prod.fst =
      some false) ∧
    ((db_buffered_write.Put [1, 2, 3, 4, 5] [6] cex_state).bind
        (fun p => (db_buffered_write.Put [1] [2] p.2).map Prod.fst) =
      some true) ∧
    ((db_buffered_write.Put [1, 2, 3, 4, 5] [6] cex_state).bind
        (fun p => (p.2.finish).map Prod.fst) = none) := by
  refine ⟨rfl, rfl, rfl⟩

/-- C1 (amended): a Put or Delete that triggers a flush whose underlying
write fails returns false with the error latched in last_status; after
that, a Put or Delete that stays below the flush threshold returns true
without attempting any write, while one that reaches the threshold, or a
finish() call, violates flush's ok-status precondition assertion
(modelled as none) rather than returning failure; the callers stop at the
first false, so the first error is the one reported. -/
theorem db_buffered_write_failure_semantics :
    (∀ (s : db_buffered_write) (k v : List Nat) (e : Nat),
      s.last_status = .err e →
      (approximateSize (s.buffer ++ [WOp.put k v]) < s.max_size →
        db_buffered_write.Put k v s =
          some (true, { s with buffer := s.buffer ++ [WOp.put k v] })) ∧
      (¬ approximateSize (s.buffer ++ [WOp.put k v]) < s.max_size →
        db_buffered_write.Put k v s = none) ∧
      (approximateSize (s.buffer ++ [WOp.del k]) < s.max_size →
        db_buffered_write.Delete k s =
          some (true, { s with buffer := s.buffer ++ [WOp.del k] })) ∧
      (¬ approximateSize (s.buffer ++ [WOp.del k]) < s.max_size →
        db_buffered_write.Delete k s = none) ∧
      s.finish = none) ∧
    (∀ (s : db_buffered_write) (k v : List Nat),
      s.last_status.isOk = true →
      ¬ approximateSize (s.buffer ++ [WOp.put k v]) < s.max_size →
      (s.dbWrites s.nwrites).isOk = false →
      db_buffered_write.Put k v s =
        some (false, { s with last_status := s.dbWrites s.nwrites,
                              nwrites := s.nwrites + 1, buffer := [] })) := by
  constructor
  · intro s k v e he
    refine ⟨fun h => Put_below k v s h, fun h => ?_, fun h => Delete_below k s h,
      fun h => ?_, ?_⟩
    · simp [db_buffered_write.Put, db_buffered_write.maybe_flush,
        db_buffered_write.flush, h, he, Status.isOk]
    · simp [db_buffered_write.Delete, db_buffered_write.maybe_flush,
        db_buffered_write.flush, h, he, Status.isOk]
    · simp [db_buffered_write.finish, db_buffered_write.flush, he, Status.isOk]
  · intro s k v hs h hw
    rw [Put_flushes k v s h hs, hw]

/-- C1 (amended) witness at concrete states: a below-threshold Put after a
failed flush returns true, finish after a failed flush is an assertion
violation, and the Put that triggers a failing flush returns false. -/
theorem db_buffered_write_failure_semantics_witness :
    (db_buffered_write.Put [1] [2] wit_err_state =
      some (true, { wit_err_state with buffer := [WOp.put [1] [2]] })) ∧
    wit_err_state.finish = none ∧
    (db_buffered_write.Put [1, 2, 3, 4, 5] [6, 7] wit_ok_state =
      some (false, { wit_ok_state with last_status := .err 5, nwrites := 1, buffer := [] })) := by
  have h := db_buffered_write_failure_semantics
  exact ⟨(h.1 wit_err_state [1] [2] 3 rfl).1 (by decide),
    (h.1 wit_err_state [1] [2] 3 rfl).2.2.2.2,
    h.2 wit_ok_state [1, 2, 3, 4, 5] [6, 7] rfl (by decide) rfl⟩

/-- C2: when the open succeeds and the sweep observed a block whose
compressor ID is neither 0 nor among the configured codec IDs, cmd_compact
exits 1 without invoking CompactRange; CompactRange runs only when the
guard's missing map is empty (and then the exit code is 0). -/
theorem cmd_compact_missing_guard :
    ∀ (uc : Bool) (env : SweepEnv),
      env.openStatus.isOk = true →
      ((∃ i, i ∈ env.sweepDispatches ∧ i ≠ 0 ∧
          i ∉ (missing_compressor_counter.init
            (if uc then make_compressors false else [])).compressor_ids) →
        cmd_compact uc env = (1, false)) ∧
      ((cmd_compact uc env).2 = true →
        sweep_missing (if uc then make_compressors false else []) env = [] ∧
        cmd_compact uc env = (0, true)) := by
  intro uc env hopen
  constructor
  · rintro ⟨i, hmem, h0, hknown⟩
    have hcount : 0 < env.sweepDispatches.count i := List.count_pos_iff.mpr hmem
    have hne : sweep_missing (if uc then make_compressors false else []) env ≠ [] := by
      intro hnil
      have hin := (mem_sweep_missing (if uc then make_compressors false else [])
          env i (env.openDispatches.count i + env.sweepDispatches.count i)).mpr
        ⟨⟨rfl, by omega⟩, h0, hknown⟩
      rw [hnil] at hin
      exact absurd hin (List.not_mem_nil _)
    simp [cmd_compact, hopen, hne]
  · intro hc
    by_cases hnil : sweep_missing (if uc then make_compressors false else []) env = []
    · exact ⟨hnil, by simp [cmd_compact, hopen, hnil]⟩
    · exfalso
      simp [cmd_compact, hopen, hnil] at hc

/-- C2 witness: a database opened without compression whose sweep saw one
block with the unregistered compressor ID 99 makes cmd_compact exit 1
with CompactRange never invoked. -/
theorem cmd_compact_missing_guard_witness :
    cmd_compact false ⟨.ok, [], [99]⟩ = (1, false) := by
  have h := cmd_compact_missing_guard false ⟨.ok, [], [99]⟩ rfl
  exact h.1 ⟨99, by decide, by decide, by decide⟩

set_option maxRecDepth 8192 in
/-- C3: get_missing returns exactly the drained histogram entries with ID
0 and every known ID removed; in particular for observed dispatches
{0, 3, 3, 250} against known non-zero IDs {3} it returns {250: 1}. -/
theorem get_missing_spec :
    (∀ (c : block_compression_type_counter) (ids : List (Fin 256)),
      (missing_compressor_counter.get_missing ⟨c, ids⟩).1 =
        c.get_counts.1.filter
          (fun p => decide (p.1 ∉ ids) && decide (p.1 ≠ 0))) ∧
    (missing_compressor_counter.get_missing
        ⟨dispatchAll ⟨fun _ => 0⟩ [0, 3, 3, 250], [3]⟩).1 = [(250, 1)] := by
  constructor
  · intro c ids
    simp only [missing_compressor_counter.get_missing]
    rw [foldl_mapErase]
    simp only [mapErase]
    rw [List.filter_filter]
  · decide

set_option maxRecDepth 8192 in
/-- C4: the histogram drain exchanges all 256 counters with zero, its
result maps an index to a value iff that counter held that nonzero value,
and it is reset-on-read: a second drain with no intervening increment
yields the empty mapping. -/
theorem get_counts_drain_spec :
    ∀ s : block_compression_type_counter,
      (∀ i, s.get_counts.2.counts i = 0) ∧
      (∀ (i : Fin 256) (v : Nat),
        (i, v) ∈ s.get_counts.1 ↔ s.counts i = v ∧ 0 < v) ∧
      s.get_counts.2.get_counts.1 = [] := by
  intro s
  refine ⟨fun i => rfl, fun i v => mem_get_counts s i v, ?_⟩
  show (⟨fun _ => 0⟩ : block_compression_type_counter).get_counts.1 = []
  decide

/-- C5 (counterexample): make_compressors with its boolean argument false
does NOT return a one-element sequence holding only the default codec: it
returns both registered codecs (and with the argument true it returns one
element, not one per non-sentinel descriptor). -/
theorem make_compressors_false_not_default_only :
    ¬ ((make_compressors false).length = 1 ∧
       (make_compressors true).length = 2) := by
  decide

/-- C5 (amended): the boolean sense is the opposite of the claim's:
make_compressors true returns the one-element sequence holding only the
default codec, and make_compressors false returns one instance per
non-sentinel registered codec in registration order. -/
theorem make_compressors_boolean_sense :
    make_compressors true = [⟨"zlib raw", 4⟩] ∧
    make_compressors false =
      get_compressors.filter (fun c => decide (c.compression_id ≠ 0)) := by
  decide

/-- C6: make_compressors false returns all non-sentinel codecs in exactly
registration order (the ID-0 sentinel filtered out), and make_compressors
true returns exactly one codec, the default one (the first registered,
"zlib raw"); the general loop lemma shows the order is the registration
order for any registry. -/
theorem make_compressors_order_and_default :
    (∀ (only_default : Bool) (reg : List compression_type),
      make_compressors_loop only_default reg =
        if only_default then
          (reg.filter (fun c => decide (c.compression_id ≠ 0))).take 1
        else
          reg.filter (fun c => decide (c.compression_id ≠ 0))) ∧
    make_compressors false = [⟨"zlib raw", 4⟩, ⟨"zlib", 2⟩] ∧
    make_compressors true = [⟨"zlib raw", 4⟩] ∧
    get_compressors.head? = some ⟨"zlib raw", 4⟩ := by
  refine ⟨?_, by decide, by decide, by decide⟩
  intro od reg
  induction reg with
  | nil => cases od <;> simp [make_compressors_loop]
  | cons c rest ih =>
    by_cases h : c.compression_id = 0
    · cases od <;> simp_all [make_compressors_loop, h]
    · cases od <;> simp_all [make_compressors_loop, h]

/-- C7: constructing the compression histogram with a null logger is a
precondition violation (the assertion rejects it, modelled as none); with
a non-null logger construction succeeds with all counters zero, and the
installed callback increments counts[id] by one, leaving every other
counter unchanged. -/
theorem counter_ctor_null_and_callback :
    block_compression_type_counter.init none = none ∧
    (∀ l : Nat, block_compression_type_counter.init (some l) =
      some ⟨fun _ => 0⟩) ∧
    (∀ (s : block_compression_type_counter) (id : Fin 256),
      (s.callback id).counts id = s.counts id + 1 ∧
      ∀ j : Fin 256, j ≠ id → (s.callback id).counts j = s.counts j) := by
  refine ⟨rfl, fun l => rfl, fun s id => ⟨?_, fun j hj => ?_⟩⟩
  · simp [block_compression_type_counter.callback]
  · simp [block_compression_type_counter.callback, hj]

/-- C7 witness: on the zero histogram the callback for ID 5 sets counter
5 to one and leaves counter 7 at zero; a null logger is rejected. -/
theorem counter_ctor_null_and_callback_witness :
    block_compression_type_counter.init none = none ∧
    (block_compression_type_counter.callback ⟨fun _ => 0⟩ 5).counts 5 = 1 ∧
    (block_compression_type_counter.callback ⟨fun _ => 0⟩ 5).counts 7 = 0 := by
  have h := counter_ctor_null_and_callback
  exact ⟨h.1, (h.2.2 ⟨fun _ => 0⟩ 5).1,
    (h.2.2 ⟨fun _ => 0⟩ 5).2 7 (by decide)⟩

/-- C8: clone_db and clear_db leave the buffered writer's batch empty on
every exit path — the success path and the early return after a failed
write — because flush clears the batch even when the write failed; hence
the destructor's buffer-empty assertion holds (and no flush precondition
assertion fires either: the result is never none). -/
theorem clone_clear_buffer_empty_on_exit :
    ∀ (dbWrites : Nat → Status) (entries : List (List Nat × List Nat))
      (keys : List (List Nat)),
      (∃ r, clone_db dbWrites entries = some r ∧ r.2.buffer = []) ∧
      (∃ r, clear_db dbWrites keys = some r ∧ r.2.buffer = []) := by
  intro w entries keys
  exact ⟨clone_loop_empties entries _ rfl, clear_loop_empties keys _ rfl⟩

/-- C9: because the guard (and its histogram callback) is constructed
before open_db in cmd_compact, cmd_clear and cmd_dump, any unknown ID
dispatched while the engine opens the database is counted: it appears in
the missing map reported after the sweep with the occurrences of the open
included, and already appears in the guard state right after the open
(cmd_dump's counter) with its open-time count. -/
theorem counter_registered_before_open :
    ∀ (compressors : List compression_type) (env : SweepEnv) (i : Fin 256),
      i ≠ 0 →
      i ∉ (missing_compressor_counter.init compressors).compressor_ids →
      i ∈ env.openDispatches →
      ((i, env.openDispatches.count i + env.sweepDispatches.count i) ∈
        sweep_missing compressors env) ∧
      ((i, env.openDispatches.count i) ∈
        (missing_compressor_counter.get_missing
          (opened_counter compressors env.openDispatches)).1) := by
  intro compressors env i h0 hids hopen
  have hcount : 0 < env.openDispatches.count i := List.count_pos_iff.mpr hopen
  constructor
  · exact (mem_sweep_missing compressors env i _).mpr ⟨⟨rfl, by omega⟩, h0, hids⟩
  · rw [mem_get_missing]
    refine ⟨⟨?_, hcount⟩, h0, hids⟩
    simp [opened_counter, counts_dispatchAll, missing_compressor_counter.init]

/-- C9 witness: with no codecs configured and ID 7 dispatched once during
the open and once during the sweep, (7, 2) is in the post-sweep missing
map and (7, 1) is already reported by the guard right after the open. -/
theorem counter_registered_before_open_witness :
    (((7 : Fin 256), 2) ∈ sweep_missing [] ⟨Status.ok, [7], [7]⟩) ∧
    (((7 : Fin 256), 1) ∈ (missing_compressor_counter.get_missing
      (opened_counter [] [7])).1) := by
  have h := counter_registered_before_open [] ⟨Status.ok, [7], [7]⟩ 7
    (by decide) (by decide) (by decide)
  exact ⟨h.1, h.2⟩

/-- C10: find_compression_algo returns a histogram exactly when the open
status is ok; when the open fails it returns the empty optional and the
sweep is not performed. -/
theorem find_compression_algo_some_iff_open_ok :
    ∀ (st : Status) (db : DbModel) (od : List (Fin 256)),
      ((find_compression_algo (open_db_model st db).1 od).1.isSome =
        st.isOk) ∧
      (st.isOk = false →
        find_compression_algo (open_db_model st db).1 od = (none, false)) := by
  intro st db od
  cases st with
  | ok =>
    refine ⟨by simp [open_db_model, find_compression_algo, Status.isOk], ?_⟩
    intro h
    simp [Status.isOk] at h
  | err e =>
    exact ⟨by simp [open_db_model, find_compression_algo, Status.isOk],
      fun hs => by simp [open_db_model, find_compression_algo, Status.isOk]⟩

/-- C10 witness: a failed open (error 0) yields the empty optional with
no sweep performed. -/
theorem find_compression_algo_some_iff_open_ok_witness :
    find_compression_algo (open_db_model (Status.err 0) ⟨[]⟩).1 [] =
      (none, false) := by
  have h := find_compression_algo_some_iff_open_ok (Status.err 0) ⟨[]⟩ []
  exact h.2 rfl
